import Mathlib

/-!
Verification of the "onebox" email aggregator sync pipeline.

This file gives a shallow embedding, in Lean 4, of the parts of the
TypeScript source that the claims of the specification are about:

* the storage layer (`server/storage.ts` / the in-memory `MemStorage` of
  `src/unnamed/part_002`, and `server/mongo-storage.ts`),
* the IMAP ingestion pipeline (`src/unnamed/part_001`: `startIMAPSync`,
  `fetchEmails`, `stopIMAPSync`),
* the classifier result post-processing (`server/lib/openai.ts`),
* the notification fan-out (`server/lib/webhooks.ts`), and
* the knowledge retrieval and reply suggestion (`src/unnamed/part_000`).

Modelling conventions:

* JavaScript `Map` objects are modelled as association lists in insertion
  order; `Map.set` with a fresh key appends, `Map.delete` filters the key out.
* `randomUUID()` is modelled by drawing a fresh identifier from a counter
  threaded through the state (`nextId`); the only property the source relies
  on is freshness.
* `Date` values are modelled as `Nat` timestamps; `new Date()` is modelled by
  an explicit `now : Nat` argument.
* External asynchronous calls (MIME parsing, the AI classifier, the query
  embedding, the chat/webhook HTTP posts, the LLM reply call) are oracles:
  their outcomes are inputs of the embedded functions (`Except` for calls the
  source lets throw, `Bool` flags for calls whose failures the source
  swallows).
* JavaScript truthiness on optional strings / numbers (`x || d`) is modelled
  explicitly: `undefined`, the empty string, and the number `0` are falsy.
-/

namespace Onebox

/-- JavaScript truthiness of an optional string: `undefined`/`null` and `""`
are falsy, every other string is truthy. -/
def truthyStr : Option String → Bool
  | none => false
  | some s => !(s == "")

/-- JavaScript `a || b` for an optional string `a`: returns `b` when `a` is
absent or empty (falsy), else the string held by `a`. -/
def jsOrString (a : Option String) (b : String) : String :=
  match a with
  | none => b
  | some s => if s == "" then b else s

/-- JavaScript `a || b` for an optional number `a`: `undefined` and `0` are
falsy, so both fall back to `b`. -/
def jsOrNum (a : Option ℚ) (b : ℚ) : ℚ :=
  match a with
  | none => b
  | some x => if x = 0 then b else x

/-- The empty string. -/
def emptyStr : String := ""

/-! ## Data model (`shared/schema.ts`) -/

/-- One IMAP mailbox registration (`emailAccounts` row). -/
structure EmailAccount where
  id : String
  email : String
  imapHost : String
  imapPort : Nat
  imapUser : String
  imapPassword : String
  isActive : Bool
  lastSyncedAt : Option Nat
  createdAt : Nat
deriving DecidableEq, Repr

/-- One ingested message (`emails` row). -/
structure Email where
  id : String
  accountId : String
  messageId : String
  «from» : String
  «to» : String
  subject : String
  bodyText : Option String
  bodyHtml : Option String
  folder : String
  category : Option String
  isRead : Bool
  hasAttachments : Bool
  receivedAt : Nat
  createdAt : Nat
deriving DecidableEq, Repr

/-- Insert shape for an email (`InsertEmail`): `id` and `createdAt` are
omitted; the fields with schema defaults are optional. -/
structure InsertEmail where
  accountId : String
  messageId : String
  «from» : String
  «to» : String
  subject : String
  bodyText : Option String
  bodyHtml : Option String
  folder : Option String
  category : Option String
  isRead : Option Bool
  hasAttachments : Option Bool
  receivedAt : Nat
deriving DecidableEq, Repr

/-- One knowledge-base entry (`knowledgeBase` row); the embedding is stored
as a serialized (JSON) string and is nullable. -/
structure KnowledgeBase where
  id : String
  content : String
  embedding : Option String
  category : String
  createdAt : Nat
  updatedAt : Nat
deriving DecidableEq, Repr

/-! ## In-memory storage (`MemStorage`, `src/unnamed/part_002`) -/

/-- The three `Map` fields of `MemStorage`, as association lists in insertion
order, plus the fresh-identifier counter modelling `randomUUID()`. -/
structure MemState where
  accounts : List (String × EmailAccount)
  emails : List (String × Email)
  knowledgeBase : List (String × KnowledgeBase)
  nextId : Nat
deriving DecidableEq, Repr

/-- The empty `MemStorage` (its constructor). -/
def MemState.empty : MemState :=
  { accounts := [], emails := [], knowledgeBase := [], nextId := 0 }

/-- Fresh identifier for a given counter value, modelling `randomUUID()`. -/
def freshId (n : Nat) : String :=
  "uuid-" ++ toString n

/-- Default folder value from the schema (`"INBOX"`). -/
def inboxFolder : String := "INBOX"

namespace MemStorage

/-- Embeds `MemStorage.getEmailByMessageId` (part_002 lines 104-108):
`Array.from(this.emails.values()).find(e => e.messageId === messageId &&
e.accountId === accountId)`. -/
def getEmailByMessageId (s : MemState) (messageId accountId : String) :
    Option Email :=
  (s.emails.map Prod.snd).find?
    (fun email => email.messageId == messageId && email.accountId == accountId)

/-- Embeds `MemStorage.createEmail` (part_002 lines 129-149): draws a fresh
id, applies the `??` defaults, and stores the record unconditionally — there
is no uniqueness check on `(messageId, accountId)` in this implementation. -/
def createEmail (s : MemState) (ins : InsertEmail) (now : Nat) :
    MemState × Email :=
  let id := freshId s.nextId
  let email : Email :=
    { id := id
      accountId := ins.accountId
      messageId := ins.messageId
      «from» := ins.«from»
      «to» := ins.«to»
      subject := ins.subject
      bodyText := ins.bodyText
      bodyHtml := ins.bodyHtml
      folder := ins.folder.getD inboxFolder
      category := ins.category
      isRead := ins.isRead.getD false
      hasAttachments := ins.hasAttachments.getD false
      receivedAt := ins.receivedAt
      createdAt := now }
  ({ s with emails := s.emails ++ [(id, email)], nextId := s.nextId + 1 },
   email)

/-- Embeds `MemStorage.updateAccountSyncTime` (part_002 lines 82-88): if the
account exists, set its `lastSyncedAt` to the current time in place. -/
def updateAccountSyncTime (s : MemState) (id : String) (now : Nat) :
    MemState :=
  match s.accounts.find? (fun p => p.1 == id) with
  | some _ =>
      { s with
        accounts := s.accounts.map
          (fun p => if p.1 == id
            then (p.1, { p.2 with lastSyncedAt := some now })
            else p) }
  | none => s

/-- Embeds `MemStorage.deleteEmailsByAccount` (part_002 lines 171-177):
collect the ids of the emails whose `accountId` matches, then delete each
collected id from the map. -/
def deleteEmailsByAccount (s : MemState) (accountId : String) : MemState :=
  let emailsToDelete :=
    (s.emails.filter (fun p => p.2.accountId == accountId)).map Prod.fst
  { s with emails := s.emails.filter (fun p => !(emailsToDelete.contains p.1)) }

/-- Embeds `MemStorage.deleteAccount` (part_002 lines 90-97): delete the
account from the map (`Map.delete` returns whether the key was present); if it
was present, cascade to `deleteEmailsByAccount`. -/
def deleteAccount (s : MemState) (id : String) : MemState × Bool :=
  let deleted := s.accounts.any (fun p => p.1 == id)
  let s1 := { s with accounts := s.accounts.filter (fun p => !(p.1 == id)) }
  if deleted then (deleteEmailsByAccount s1 id, true) else (s1, false)

end MemStorage

/-! ## MongoDB storage (`server/mongo-storage.ts`)

The `emails` collection carries a unique index on `(messageId, accountId)`
(created in `connect`, line 49). `insertOne` therefore fails with the
duplicate-key error code 11000 exactly when a document with the same
`(messageId, accountId)` already exists, which `createEmail` resolves by
re-reading and returning the existing document (lines 221-230). -/

namespace MongoStorage

/-- Embeds `MongoStorage.getEmailByMessageId` (mongo-storage.ts lines
172-176): `findOne({ messageId, accountId })`. -/
def getEmailByMessageId (s : MemState) (messageId accountId : String) :
    Option Email :=
  (s.emails.map Prod.snd).find?
    (fun email => email.messageId == messageId && email.accountId == accountId)

/-- Embeds `MongoStorage.createEmail` (mongo-storage.ts lines 200-233):
build the document with the `??` defaults and `insertOne` it; a duplicate-key
failure of the unique `(messageId, accountId)` index is resolved by returning
the already-existing document. -/
def createEmail (s : MemState) (ins : InsertEmail) (now : Nat) :
    MemState × Email :=
  match getEmailByMessageId s ins.messageId ins.accountId with
  | some existing => (s, existing)
  | none =>
      let id := freshId s.nextId
      let emailDoc : Email :=
        { id := id
          accountId := ins.accountId
          messageId := ins.messageId
          «from» := ins.«from»
          «to» := ins.«to»
          subject := ins.subject
          bodyText := ins.bodyText
          bodyHtml := ins.bodyHtml
          folder := ins.folder.getD inboxFolder
          category := ins.category
          isRead := ins.isRead.getD false
          hasAttachments := ins.hasAttachments.getD false
          receivedAt := ins.receivedAt
          createdAt := now }
      ({ s with emails := s.emails ++ [(id, emailDoc)], nextId := s.nextId + 1 },
       emailDoc)

end MongoStorage

/-! ## Notification fan-out (`server/lib/webhooks.ts`)

Both functions first test their target URL for truthiness and return with a
log line when it is unconfigured; otherwise they issue one HTTP post whose
failure is caught and logged locally (lines 59-61 and 94-96). Neither
function can throw, so each is embedded as a total function from the
environment and the outcome of its single HTTP post to the one observable
event it produces. -/

/-- Observable outcome of one notification call. -/
inductive NotifEvent
  | slackSkippedUnconfigured
  | slackSent
  | slackErrorLogged
  | webhookSkippedUnconfigured
  | webhookSent
  | webhookErrorLogged
deriving DecidableEq, Repr

/-- Configuration and HTTP outcomes for the two notification targets:
`SLACK_WEBHOOK_URL` and `WEBHOOK_SITE_URL` from the environment, and whether
the respective `axios.post` would succeed. -/
structure NotifyEnv where
  slackWebhookUrl : Option String
  webhookSiteUrl : Option String
  slackPostOk : Bool
  webhookPostOk : Bool
deriving DecidableEq, Repr

/-- Embeds `sendSlackNotification` (webhooks.ts lines 5-62): skip with a log
when the URL is unconfigured, otherwise post once; an HTTP error is caught
and logged, never thrown. -/
def sendSlackNotification (env : NotifyEnv) (_email : Email) :
    List NotifEvent :=
  if truthyStr env.slackWebhookUrl then
    if env.slackPostOk then [NotifEvent.slackSent]
    else [NotifEvent.slackErrorLogged]
  else [NotifEvent.slackSkippedUnconfigured]

/-- Embeds `sendWebhook` (webhooks.ts lines 65-97): same shape as the chat
notification, against the generic webhook URL. -/
def sendWebhook (env : NotifyEnv) (_email : Email) : List NotifEvent :=
  if truthyStr env.webhookSiteUrl then
    if env.webhookPostOk then [NotifEvent.webhookSent]
    else [NotifEvent.webhookErrorLogged]
  else [NotifEvent.webhookSkippedUnconfigured]

/-- Returns true on the three outcomes a `sendSlackNotification` call can
produce: counting these events counts calls of that function. -/
def isSlackEvent : NotifEvent → Bool
  | NotifEvent.slackSkippedUnconfigured => true
  | NotifEvent.slackSent => true
  | NotifEvent.slackErrorLogged => true
  | _ => false

/-- Returns true on the three outcomes a `sendWebhook` call can produce. -/
def isWebhookEvent : NotifEvent → Bool
  | NotifEvent.webhookSkippedUnconfigured => true
  | NotifEvent.webhookSent => true
  | NotifEvent.webhookErrorLogged => true
  | _ => false

/-! ## Classifier post-processing (`server/lib/openai.ts`) -/

/-- Result type of `categorizeEmail`. -/
structure EmailCategorizationResult where
  category : String
  confidence : ℚ
deriving DecidableEq, Repr

/-- Embeds the confidence post-processing of `categorizeEmail`
(openai.ts line 61): `Math.max(0, Math.min(1, result.confidence || 0.8))`,
where the raw parsed JSON field may be absent and `0` is falsy. -/
def categorizeEmailConfidence (raw : Option ℚ) : ℚ :=
  max 0 (min 1 (jsOrNum raw ((8 : ℚ) / 10)))

/-! ## IMAP ingestion pipeline (`src/unnamed/part_001`) -/

/-- Fields of a `simpleParser` result that the pipeline reads. `messageId`
is absent when the message has no Message-ID header. -/
structure ParsedMail where
  messageId : Option String
  subject : Option String
  «from» : Option String
  «to» : Option String
  text : Option String
  html : Option String
  attachmentsCount : Nat
  date : Option Nat
deriving DecidableEq, Repr

/-- Embeds the identity resolution of `fetchEmails` (part_001 line 128):
`parsed.messageId || account.id + "-" + uid`. -/
def resolveMessageId (parsedMessageId : Option String) (accountId : String)
    (uid : Nat) : String :=
  jsOrString parsedMessageId (accountId ++ "-" ++ toString uid)

instance exceptDecEq {ε α : Type} [DecidableEq ε] [DecidableEq α] :
    DecidableEq (Except ε α) := fun a b =>
  match a, b with
  | Except.ok x, Except.ok y =>
      if h : x = y then isTrue (by rw [h]) else isFalse (by simp [h])
  | Except.error x, Except.error y =>
      if h : x = y then isTrue (by rw [h]) else isFalse (by simp [h])
  | Except.ok _, Except.error _ => isFalse (by simp)
  | Except.error _, Except.ok _ => isFalse (by simp)

/-- One fetched message together with the outcomes of the two external calls
made while processing it: the MIME parse (`simpleParser`) and the AI
classification (`categorizeEmail`), both of which the source lets throw. -/
structure MsgInput where
  uid : Nat
  parse : Except String ParsedMail
  categorize : Except String EmailCategorizationResult
deriving DecidableEq, Repr

/-- Observable events of processing one message (log lines, storage writes,
index writes, notification calls). -/
inductive Event
  | errorLogged
  | dupSkipLogged (messageId : String)
  | emailSaved (emailId : String)
  | indexAttempted (emailId : String)
  | notif (e : NotifEvent)
  | syncTimeUpdated (accountId : String)
deriving DecidableEq, Repr

/-- Embeds `indexEmail` (elasticsearch.ts lines 77-92): the call either
indexes the email or silently returns (no client, unavailable cluster, or a
caught error) — it never throws, so it is one best-effort attempt event. -/
def indexEmail (email : Email) : List Event :=
  [Event.indexAttempted email.id]

/-- Default subject from `fetchEmails` line 152. -/
def noSubject : String := "(No Subject)"

/-- Category gate value from `fetchEmails` line 171. -/
def interestedCategory : String := "Interested"

/-- Embeds the per-message `msg.once("end")` handler of `fetchEmails`
(part_001 lines 123-184). The whole body is wrapped in a try/catch whose
handler only logs (lines 181-183), so the function is total:

1. parse the accumulated raw body; a parse failure is caught and logged;
2. resolve the message identity and look it up; if found, log and skip;
3. classify; a classifier failure is caught and logged — nothing is stored;
4. build the `InsertEmail` (falsy fallbacks as in lines 147-160), store it,
   index it best-effort, notify iff the category is `Interested`, and update
   the sync time of the account. -/
def processMessage (env : NotifyEnv) (account : EmailAccount) (m : MsgInput)
    (s : MemState) (now : Nat) : MemState × List Event :=
  match m.parse with
  | Except.error _ => (s, [Event.errorLogged])
  | Except.ok parsed =>
    let messageId := resolveMessageId parsed.messageId account.id m.uid
    match MemStorage.getEmailByMessageId s messageId account.id with
    | some _ => (s, [Event.dupSkipLogged messageId])
    | none =>
      match m.categorize with
      | Except.error _ => (s, [Event.errorLogged])
      | Except.ok categorization =>
        let bodyText := jsOrString parsed.text emptyStr
        let bodyHtml := jsOrString parsed.html emptyStr
        let emailData : InsertEmail :=
          { accountId := account.id
            messageId := messageId
            «from» := jsOrString parsed.«from» emptyStr
            «to» := jsOrString parsed.«to» emptyStr
            subject := jsOrString parsed.subject noSubject
            bodyText := some bodyText
            bodyHtml := if bodyHtml == "" then none else some bodyHtml
            folder := some inboxFolder
            category := some categorization.category
            isRead := some false
            hasAttachments := some (decide (0 < parsed.attachmentsCount))
            receivedAt := parsed.date.getD now }
        let step := MemStorage.createEmail s emailData now
        let notifEvents : List Event :=
          if categorization.category == interestedCategory then
            (sendSlackNotification env step.2 ++ sendWebhook env step.2).map
              Event.notif
          else []
        (MemStorage.updateAccountSyncTime step.1 account.id now,
         Event.emailSaved step.2.id :: indexEmail step.2 ++ notifEvents ++
           [Event.syncTimeUpdated account.id])

/-- Sequential processing of the fetched batch: the per-message handler is
total (its try/catch catches everything), so the batch always continues with
the next message. -/
def processBatch (env : NotifyEnv) (account : EmailAccount) :
    List MsgInput → MemState → Nat → MemState × List Event
  | [], s, _ => (s, [])
  | m :: rest, s, now =>
    let step := processMessage env account m s now
    let told := processBatch env account rest step.1 now
    (told.1, step.2 ++ told.2)

/-- Embeds the batch cap of `fetchEmails` (part_001 line 102):
`results.slice(-100)` keeps only the last (most recent) 100 search results. -/
def fetchBatchUids (results : List Nat) : List Nat :=
  results.drop (results.length - 100)

/-! ## Live-session registry (`src/unnamed/part_001`)

The module-level `activeConnections : Map<string, Imap>` maps account ids to
live IMAP connections. `Imap` objects are modelled by fresh numeric session
handles drawn from a counter; `imap.end()` calls are recorded in `ended`. -/

/-- Registry state: the `activeConnections` map in insertion order, the
fresh-handle counter for `new Imap(...)`, and the handles terminated so far. -/
structure SyncState where
  activeConnections : List (String × Nat)
  nextSession : Nat
  ended : List Nat
deriving DecidableEq, Repr

/-- The registry at module load: an empty map. -/
def SyncState.init : SyncState :=
  { activeConnections := [], nextSession := 0, ended := [] }

/-- Embeds `startIMAPSync` (part_001 lines 13-67): if a connection for this
account id is registered, `end()` it and delete it from the map first (lines
16-20); then create a fresh connection, connect, and register it under the
account id (lines 22-62). -/
def startIMAPSync (st : SyncState) (accountId : String) : SyncState :=
  let st1 :=
    match st.activeConnections.find? (fun p => p.1 == accountId) with
    | some existing =>
        { st with
          ended := st.ended ++ [existing.2]
          activeConnections :=
            st.activeConnections.filter (fun p => !(p.1 == accountId)) }
    | none => st
  { st1 with
    activeConnections := st1.activeConnections ++ [(accountId, st1.nextSession)]
    nextSession := st1.nextSession + 1 }

/-- Embeds `stopIMAPSync` (part_001 lines 201-208): if the id is registered,
`end()` the connection and delete the entry; otherwise do nothing. -/
def stopIMAPSync (st : SyncState) (accountId : String) : SyncState :=
  match st.activeConnections.find? (fun p => p.1 == accountId) with
  | some existing =>
      { st with
        ended := st.ended ++ [existing.2]
        activeConnections :=
          st.activeConnections.filter (fun p => !(p.1 == accountId)) }
  | none => st

/-- One operation against the session registry. -/
inductive SyncOp
  | start (accountId : String)
  | stop (accountId : String)
deriving DecidableEq, Repr

/-- Applies a sequence of start/stop operations to the registry. -/
def applySyncOps (st : SyncState) : List SyncOp → SyncState
  | [] => st
  | SyncOp.start a :: rest => applySyncOps (startIMAPSync st a) rest
  | SyncOp.stop a :: rest => applySyncOps (stopIMAPSync st a) rest

/-! ## Knowledge retrieval and reply suggestion (`src/unnamed/part_000`)

`generateEmbedding` is an external OpenAI call that can throw; it is the
oracle `embed : String → Except String Embedding`. `cosineSimilarity` is
floating-point real arithmetic over the query embedding and the JSON-decoded
stored embedding; the composite `cosineSimilarity(queryEmbedding,
JSON.parse(stored))` is abstracted as a rational-valued score function
`cosSim : Embedding → String → ℚ` — only the ordering it induces matters to
the selection logic under verification. -/

/-- A numeric embedding vector. -/
abbrev Embedding := List ℚ

/-- A knowledge entry paired with its similarity score (the intermediate
`{ entry, similarity }` objects of `findRelevantKnowledge`). -/
structure ScoredEntry where
  entry : KnowledgeBase
  similarity : ℚ
deriving DecidableEq, Repr

/-- Descending-similarity order: the comparator
`(a, b) => b.similarity - a.similarity` puts `a` before `b` exactly when
`b.similarity ≤ a.similarity`. -/
def simGe (a b : ScoredEntry) : Prop := b.similarity ≤ a.similarity

instance : DecidableRel simGe := fun a b =>
  inferInstanceAs (Decidable (b.similarity ≤ a.similarity))

instance : IsTotal ScoredEntry simGe :=
  ⟨fun a b => le_total b.similarity a.similarity⟩

instance : IsTrans ScoredEntry simGe :=
  ⟨fun _ _ _ h1 h2 => le_trans h2 h1⟩

/-- The filter-and-score step of `findRelevantKnowledge` (part_000 lines
59-65): keep the entries with a truthy stored embedding and score each one
against the query embedding. -/
def scoredKnowledge (cosSim : Embedding → String → ℚ)
    (queryEmbedding : Embedding) (knowledgeEntries : List KnowledgeBase) :
    List ScoredEntry :=
  (knowledgeEntries.filter (fun entry => truthyStr entry.embedding)).map
    (fun entry =>
      { entry := entry
        similarity := cosSim queryEmbedding (entry.embedding.getD emptyStr) })

/-- Embeds `findRelevantKnowledge` (part_000 lines 48-70): early return on an
empty knowledge list (before the embedding call), then embed the query,
score the entries carrying an embedding, sort by descending similarity
(JavaScript `Array.sort` is stable, as is `List.insertionSort`), keep the
first `topK`, and project back to the entries. -/
def findRelevantKnowledge (embed : String → Except String Embedding)
    (cosSim : Embedding → String → ℚ) (query : String)
    (knowledgeEntries : List KnowledgeBase) (topK : Nat) :
    Except String (List KnowledgeBase) :=
  if knowledgeEntries.length = 0 then Except.ok []
  else
    match embed query with
    | Except.error e => Except.error e
    | Except.ok queryEmbedding =>
        let scoredEntries :=
          (((scoredKnowledge cosSim queryEmbedding knowledgeEntries).insertionSort
            simGe).take topK)
        Except.ok (scoredEntries.map ScoredEntry.entry)

/-- Raw JSON fields of the LLM reply completion (either may be absent). -/
structure RawReply where
  reply : Option String
  confidence : Option ℚ
deriving DecidableEq, Repr

/-- Result type of `generateReply`. -/
structure SuggestedReply where
  reply : String
  confidence : ℚ
  relevantKnowledge : List String
deriving DecidableEq, Repr

/-- Fallback reply text from part_000 line 131. -/
def defaultReplyText : String :=
  "Thank you for your email. I will get back to you shortly."

/-- Fallback body marker from part_000 line 88. -/
def noBodyText : String := "No body"

/-- Failure message thrown by the catch-all of `generateReply`
(part_000 line 137). -/
def replyFailureMsg : String := "Failed to generate reply suggestion"

/-- Embeds the query-context construction of `generateReply` (part_000 lines
85-89): subject, sender, and the first 1000 characters of the body with the
falsy fallback to the no-body marker. -/
def emailContext (email : Email) : String :=
  "Subject: " ++ email.subject ++ "\nFrom: " ++ email.«from» ++ "\nBody: "
    ++ jsOrString (email.bodyText.map (fun t => t.take 1000)) noBodyText

/-- Embeds `generateReply` (part_000 lines 78-139): retrieve the grounding
entries, call the LLM (oracle `llm`), and post-process its JSON with the
falsy fallbacks of lines 130-134; any failure of retrieval or generation is
caught and rethrown as a single failure (lines 135-138). -/
def generateReply (embed : String → Except String Embedding)
    (cosSim : Embedding → String → ℚ) (llm : Except String RawReply)
    (email : Email) (knowledgeEntries : List KnowledgeBase) :
    Except String SuggestedReply :=
  match findRelevantKnowledge embed cosSim (emailContext email)
      knowledgeEntries 3 with
  | Except.error _ => Except.error replyFailureMsg
  | Except.ok relevantKnowledge =>
      match llm with
      | Except.error _ => Except.error replyFailureMsg
      | Except.ok result =>
          Except.ok
            { reply := jsOrString result.reply defaultReplyText
              confidence := max 0 (min 1 (jsOrNum result.confidence ((7 : ℚ) / 10)))
              relevantKnowledge := relevantKnowledge.map KnowledgeBase.content }

/-! ## Derived observations and shared lemmas -/

/-- Number of stored email records carrying a given
`(messageId, accountId)` key. -/
def countByKey (s : MemState) (messageId accountId : String) : Nat :=
  (s.emails.map Prod.snd).countP
    (fun e => e.messageId == messageId && e.accountId == accountId)

/-- Number of chat-notification calls visible in an event list. -/
def slackAttempts (evs : List Event) : Nat :=
  evs.countP (fun ev =>
    match ev with
    | Event.notif ne => isSlackEvent ne
    | _ => false)

/-- Number of generic-webhook calls visible in an event list. -/
def webhookAttempts (evs : List Event) : Nat :=
  evs.countP (fun ev =>
    match ev with
    | Event.notif ne => isWebhookEvent ne
    | _ => false)

/-- Updating the sync time of an account never touches the email map. -/
theorem updateAccountSyncTime_emails (s : MemState) (id : String) (now : Nat) :
    (MemStorage.updateAccountSyncTime s id now).emails = s.emails := by
  unfold MemStorage.updateAccountSyncTime
  split <;> rfl

/-- Updating the sync time of an account never touches the knowledge base. -/
theorem updateAccountSyncTime_knowledge (s : MemState) (id : String)
    (now : Nat) :
    (MemStorage.updateAccountSyncTime s id now).knowledgeBase
      = s.knowledgeBase := by
  unfold MemStorage.updateAccountSyncTime
  split <;> rfl

/-- Appending a record that carries the looked-up key to an email map in
which the lookup previously failed makes the lookup return that record. -/
theorem findEmail_append (l : List (String × Email)) (idv : String)
    (e : Email) (mid aid : String) (hm : e.messageId = mid)
    (ha : e.accountId = aid)
    (hnone : (l.map Prod.snd).find?
      (fun x => x.messageId == mid && x.accountId == aid) = none) :
    ((l ++ [(idv, e)]).map Prod.snd).find?
      (fun x => x.messageId == mid && x.accountId == aid) = some e := by
  rw [List.map_append, List.find?_append, hnone]
  simp [hm, ha]

/-- Processing a fresh, parseable, classifiable message appends exactly one
record to the email map, keyed by the resolved message identity and the
owning account. -/
theorem processMessage_fresh_emails (env : NotifyEnv) (account : EmailAccount)
    (m : MsgInput) (s : MemState) (now : Nat) (parsed : ParsedMail)
    (cat : EmailCategorizationResult)
    (hp : m.parse = Except.ok parsed) (hc : m.categorize = Except.ok cat)
    (hfind : MemStorage.getEmailByMessageId s
      (resolveMessageId parsed.messageId account.id m.uid) account.id = none) :
    ∃ idv e, (processMessage env account m s now).1.emails = s.emails ++ [(idv, e)]
      ∧ e.messageId = resolveMessageId parsed.messageId account.id m.uid
      ∧ e.accountId = account.id := by
  unfold processMessage
  rw [hp]
  simp only [hfind, hc]
  rw [updateAccountSyncTime_emails]
  exact ⟨freshId s.nextId, _, rfl, rfl, rfl⟩

/-- After a fresh, parseable, classifiable message is processed, the lookup
by its resolved identity finds a stored record with that identity. -/
theorem processMessage_fresh_lookup (env : NotifyEnv) (account : EmailAccount)
    (m : MsgInput) (s : MemState) (now : Nat) (parsed : ParsedMail)
    (cat : EmailCategorizationResult)
    (hp : m.parse = Except.ok parsed) (hc : m.categorize = Except.ok cat)
    (hfind : MemStorage.getEmailByMessageId s
      (resolveMessageId parsed.messageId account.id m.uid) account.id = none) :
    ∃ e, MemStorage.getEmailByMessageId (processMessage env account m s now).1
        (resolveMessageId parsed.messageId account.id m.uid) account.id = some e
      ∧ e.messageId = resolveMessageId parsed.messageId account.id m.uid
      ∧ e.accountId = account.id := by
  obtain ⟨idv, e, hem, hm, ha⟩ :=
    processMessage_fresh_emails env account m s now parsed cat hp hc hfind
  refine ⟨e, ?_, hm, ha⟩
  unfold MemStorage.getEmailByMessageId at hfind ⊢
  rw [hem]
  exact findEmail_append s.emails idv e _ _ hm ha hfind

/-- Processing a message whose resolved identity is already stored is a
no-op that only logs the duplicate skip (part_001 lines 131-134). -/
theorem processMessage_dup (env : NotifyEnv) (account : EmailAccount)
    (m : MsgInput) (s : MemState) (now : Nat) (parsed : ParsedMail) (e : Email)
    (hp : m.parse = Except.ok parsed)
    (hfind : MemStorage.getEmailByMessageId s
      (resolveMessageId parsed.messageId account.id m.uid) account.id
      = some e) :
    processMessage env account m s now
      = (s, [Event.dupSkipLogged
          (resolveMessageId parsed.messageId account.id m.uid)]) := by
  unfold processMessage
  rw [hp]
  simp only [hfind]

/-- Processing a fresh, parseable, classifiable message adds exactly one
record with its `(messageId, accountId)` key. -/
theorem processMessage_fresh_count (env : NotifyEnv) (account : EmailAccount)
    (m : MsgInput) (s : MemState) (now : Nat) (parsed : ParsedMail)
    (cat : EmailCategorizationResult)
    (hp : m.parse = Except.ok parsed) (hc : m.categorize = Except.ok cat)
    (hfind : MemStorage.getEmailByMessageId s
      (resolveMessageId parsed.messageId account.id m.uid) account.id = none) :
    countByKey (processMessage env account m s now).1
        (resolveMessageId parsed.messageId account.id m.uid) account.id
      = countByKey s (resolveMessageId parsed.messageId account.id m.uid)
          account.id + 1 := by
  obtain ⟨idv, e, hem, hm, ha⟩ :=
    processMessage_fresh_emails env account m s now parsed cat hp hc hfind
  unfold countByKey
  rw [hem, List.map_append, List.countP_append]
  simp [hm, ha]

/-- A lookup that succeeds contradicts a zero count for the same key. -/
theorem countByKey_pos_of_find (s : MemState) (mid aid : String) (e : Email)
    (hfind : MemStorage.getEmailByMessageId s mid aid = some e) :
    countByKey s mid aid ≠ 0 := by
  unfold MemStorage.getEmailByMessageId at hfind
  unfold countByKey
  rw [ne_eq, List.countP_eq_zero]
  intro hall
  exact absurd (List.find?_some hfind) (hall e (List.mem_of_find?_eq_some hfind))

/-- When the key is already stored, the MongoDB `createEmail` returns the
existing record and leaves the collection unchanged (the duplicate-key
resolution path). -/
theorem mongoCreateEmail_found (s : MemState) (ins : InsertEmail) (n : Nat)
    (e : Email)
    (h : MongoStorage.getEmailByMessageId s ins.messageId ins.accountId
      = some e) :
    MongoStorage.createEmail s ins n = (s, e) := by
  unfold MongoStorage.createEmail
  rw [h]

/-- The MongoDB `createEmail` is idempotent on the `(messageId, accountId)`
key: a second call with the same key returns the record the first call
produced and leaves the collection unchanged. -/
theorem mongoCreateEmail_idem (s : MemState) (ins : InsertEmail)
    (n1 n2 : Nat) :
    MongoStorage.createEmail (MongoStorage.createEmail s ins n1).1 ins n2
      = ((MongoStorage.createEmail s ins n1).1,
         (MongoStorage.createEmail s ins n1).2) := by
  cases h : MongoStorage.getEmailByMessageId s ins.messageId ins.accountId with
  | some e =>
      have h1 := mongoCreateEmail_found s ins n1 e h
      rw [h1]
      exact mongoCreateEmail_found s ins n2 e h
  | none =>
      have hlook : MongoStorage.getEmailByMessageId
          (MongoStorage.createEmail s ins n1).1 ins.messageId ins.accountId
          = some (MongoStorage.createEmail s ins n1).2 := by
        unfold MongoStorage.createEmail
        rw [h]
        unfold MongoStorage.getEmailByMessageId at h ⊢
        exact findEmail_append s.emails _ _ _ _ rfl rfl h
      exact mongoCreateEmail_found _ ins n2 _ hlook

/-! ## Sample inputs used by counterexamples and witnesses -/

/-- Sample declared message id. -/
def sampleMid : String := "mid-1"

/-- Sample account id. -/
def sampleAcctId : String := "acct-1"

/-- Sample subject line. -/
def sampleSubject : String := "hello"

/-- Sample sender display string. -/
def sampleFrom : String := "alice@example.com"

/-- Sample recipient display string. -/
def sampleTo : String := "bob@example.com"

/-- Sample plain-text body. -/
def sampleBodyText : String := "body"

/-- Sample chat webhook URL. -/
def sampleSlackUrl : String := "https://chat.example/hook"

/-- Sample account. -/
def sampleAccount : EmailAccount :=
  { id := "acct-1", email := "user@example.com",
    imapHost := "imap.example.com", imapPort := 993, imapUser := "user",
    imapPassword := "pw", isActive := true, lastSyncedAt := none,
    createdAt := 0 }

/-- Sample parsed message with a declared message id. -/
def sampleParsed : ParsedMail :=
  { messageId := some sampleMid, subject := some sampleSubject,
    «from» := some sampleFrom, «to» := some sampleTo,
    text := some sampleBodyText, html := none, attachmentsCount := 0,
    date := some 5 }

/-- Sample classification result. -/
def sampleCat : EmailCategorizationResult :=
  { category := "Interested", confidence := 1 }

/-- Sample message input whose external calls both succeed. -/
def sampleMsg : MsgInput :=
  { uid := 7, parse := Except.ok sampleParsed,
    categorize := Except.ok sampleCat }

/-- Sample notification environment: chat configured, webhook not. -/
def sampleEnv : NotifyEnv :=
  { slackWebhookUrl := some sampleSlackUrl,
    webhookSiteUrl := none, slackPostOk := true, webhookPostOk := true }

/-- Sample insert payload. -/
def sampleInsert : InsertEmail :=
  { accountId := "acct-1", messageId := "mid-1",
    «from» := "alice@example.com", «to» := "bob@example.com",
    subject := "hello", bodyText := none, bodyHtml := none, folder := none,
    category := none, isRead := none, hasAttachments := none,
    receivedAt := 0 }

/-! ## Claims -/

/-- C1, counterexample: the in-memory `MemStorage.createEmail` performs no
uniqueness check, so calling it twice with the same `(messageId, accountId)`
pair stores two records with that key and returns two distinct records. -/
theorem memCreateEmail_duplicate_records :
    countByKey
        (MemStorage.createEmail
          (MemStorage.createEmail MemState.empty sampleInsert 0).1
          sampleInsert 0).1
        sampleInsert.messageId sampleInsert.accountId = 2
    ∧ (MemStorage.createEmail MemState.empty sampleInsert 0).2
      ≠ (MemStorage.createEmail
          (MemStorage.createEmail MemState.empty sampleInsert 0).1
          sampleInsert 0).2 := by
  decide

/-- C1 (amended): re-ingesting a message with the same resolved identity for
the same account through the pipeline is a no-op that only logs a duplicate
skip and leaves the state unchanged; starting from a state without the key,
exactly one record with the key is stored; and `MongoStorage.createEmail`
(backed by the unique `(messageId, accountId)` index) called twice with the
same pair returns the first record and stores nothing new. The in-memory
`MemStorage.createEmail` itself checks nothing (see the counterexample). -/
theorem ingest_idempotent (env : NotifyEnv) (account : EmailAccount)
    (m : MsgInput) (s : MemState) (now now2 : Nat) (parsed : ParsedMail)
    (cat : EmailCategorizationResult)
    (hp : m.parse = Except.ok parsed) (hc : m.categorize = Except.ok cat) :
    processMessage env account m (processMessage env account m s now).1 now2
      = ((processMessage env account m s now).1,
         [Event.dupSkipLogged
           (resolveMessageId parsed.messageId account.id m.uid)])
    ∧ (countByKey s (resolveMessageId parsed.messageId account.id m.uid)
          account.id = 0 →
        countByKey (processMessage env account m s now).1
          (resolveMessageId parsed.messageId account.id m.uid) account.id = 1)
    ∧ (∀ (ins : InsertEmail) (n1 n2 : Nat),
        MongoStorage.createEmail (MongoStorage.createEmail s ins n1).1 ins n2
          = ((MongoStorage.createEmail s ins n1).1,
             (MongoStorage.createEmail s ins n1).2)) := by
  refine ⟨?_, ?_, fun ins n1 n2 => mongoCreateEmail_idem s ins n1 n2⟩
  · cases hfind : MemStorage.getEmailByMessageId s
        (resolveMessageId parsed.messageId account.id m.uid) account.id with
    | some e =>
        have h1 := processMessage_dup env account m s now parsed e hp hfind
        rw [h1]
        exact processMessage_dup env account m s now2 parsed e hp hfind
    | none =>
        obtain ⟨e, hlook, _, _⟩ :=
          processMessage_fresh_lookup env account m s now parsed cat hp hc hfind
        exact processMessage_dup env account m _ now2 parsed e hp hlook
  · intro h0
    cases hfind : MemStorage.getEmailByMessageId s
        (resolveMessageId parsed.messageId account.id m.uid) account.id with
    | some e => exact absurd h0 (countByKey_pos_of_find s _ _ e hfind)
    | none =>
        rw [processMessage_fresh_count env account m s now parsed cat hp hc
          hfind, h0]

/-- C1 witness: the amended idempotence at a concrete account, message and
empty store. -/
theorem ingest_idempotent_witness :
    sampleMsg.parse = Except.ok sampleParsed
    ∧ sampleMsg.categorize = Except.ok sampleCat
    ∧ processMessage sampleEnv sampleAccount sampleMsg
        (processMessage sampleEnv sampleAccount sampleMsg MemState.empty 0).1 1
      = ((processMessage sampleEnv sampleAccount sampleMsg MemState.empty 0).1,
         [Event.dupSkipLogged
           (resolveMessageId sampleParsed.messageId sampleAccount.id
             sampleMsg.uid)]) :=
  ⟨rfl, rfl,
   (ingest_idempotent sampleEnv sampleAccount sampleMsg MemState.empty 0 1
     sampleParsed sampleCat rfl rfl).1⟩

/-- C2: the identity used for deduplication and storage is the declared
message id when the parsed message has one, and otherwise exactly the string
built from the id of the owning account and the UID of the message; a freshly processed
message is stored under that resolved identity. -/
theorem message_identity_resolution (accountId : String) (uid : Nat) :
    (∀ s : String, s ≠ "" → resolveMessageId (some s) accountId uid = s)
    ∧ resolveMessageId none accountId uid = accountId ++ "-" ++ toString uid
    ∧ (∀ (env : NotifyEnv) (account : EmailAccount) (m : MsgInput)
        (st : MemState) (now : Nat) (parsed : ParsedMail)
        (cat : EmailCategorizationResult),
        m.parse = Except.ok parsed → m.categorize = Except.ok cat →
        MemStorage.getEmailByMessageId st
          (resolveMessageId parsed.messageId account.id m.uid) account.id
          = none →
        ∃ e, MemStorage.getEmailByMessageId (processMessage env account m st
              now).1
            (resolveMessageId parsed.messageId account.id m.uid) account.id
            = some e
          ∧ e.messageId = resolveMessageId parsed.messageId account.id m.uid
          ∧ e.accountId = account.id) := by
  refine ⟨?_, rfl, ?_⟩
  · intro s hs
    simp [resolveMessageId, jsOrString, hs]
  · intro env account m st now parsed cat hp hc hfind
    exact processMessage_fresh_lookup env account m st now parsed cat hp hc
      hfind

/-- C2 witness: identity resolution at concrete inputs. -/
theorem message_identity_resolution_witness :
    sampleMid ≠ ""
    ∧ resolveMessageId (some sampleMid) sampleAcctId 7 = sampleMid
    ∧ resolveMessageId none sampleAcctId 7
      = sampleAcctId ++ "-" ++ toString 7 :=
  ⟨by decide,
   (message_identity_resolution sampleAcctId 7).1 sampleMid (by decide),
   (message_identity_resolution sampleAcctId 7).2.1⟩

/-- C4: a fetch pass processes at most 100 search results; when more than
100 match it processes exactly the trailing (most recent) 100, the leading
(oldest) ones being dropped; with 150 results, exactly the 50 oldest are
dropped. -/
theorem fetch_batch_cap (results : List Nat)
    (h150 : results.length = 150) :
    (∀ l : List Nat, (fetchBatchUids l).length ≤ 100)
    ∧ (∀ l : List Nat, 100 < l.length →
        (fetchBatchUids l).length = 100
        ∧ List.take (l.length - 100) l ++ fetchBatchUids l = l)
    ∧ fetchBatchUids results = results.drop 50
    ∧ List.take 50 results ++ fetchBatchUids results = results := by
  have hlen : ∀ l : List Nat, (fetchBatchUids l).length
      = l.length - (l.length - 100) := by
    intro l
    unfold fetchBatchUids
    exact List.length_drop _ _
  refine ⟨?_, ?_, ?_, ?_⟩
  · intro l
    rw [hlen l]
    omega
  · intro l hl
    refine ⟨?_, List.take_append_drop _ _⟩
    rw [hlen l]
    omega
  · unfold fetchBatchUids
    rw [h150]
  · unfold fetchBatchUids
    rw [h150]
    exact List.take_append_drop 50 results

/-- C4 witness: the cap at a concrete 150-element result list. -/
theorem fetch_batch_cap_witness :
    (List.range 150).length = 150
    ∧ fetchBatchUids (List.range 150) = (List.range 150).drop 50 :=
  ⟨by simp, (fetch_batch_cap (List.range 150) (by simp)).2.2.1⟩

/-- Under unique email-map keys, a key belongs to the collected
delete-list exactly when its record belongs to the account being deleted. -/
theorem emailsToDelete_contains (l : List (String × Email)) (aid : String)
    (hnodup : (l.map Prod.fst).Nodup) (p : String × Email) (hp : p ∈ l) :
    ((l.filter (fun q => q.2.accountId == aid)).map Prod.fst).contains p.1
      = (p.2.accountId == aid) := by
  rw [Bool.eq_iff_iff]
  constructor
  · intro h
    have hmem : p.1 ∈ (l.filter (fun q => q.2.accountId == aid)).map
        Prod.fst := by
      simpa using h
    obtain ⟨q, hq, hq1⟩ := List.mem_map.mp hmem
    have hql : q ∈ l := List.mem_of_mem_filter hq
    have hqa := List.of_mem_filter hq
    have hqp : q = p := List.inj_on_of_nodup_map hnodup hql hp hq1
    rw [← hqp]
    exact hqa
  · intro h
    have hmem : p.1 ∈ (l.filter (fun q => q.2.accountId == aid)).map
        Prod.fst :=
      List.mem_map_of_mem Prod.fst (List.mem_filter.mpr ⟨hp, h⟩)
    simpa using hmem

/-- Under unique email-map keys, the collect-then-delete of
`deleteEmailsByAccount` equals filtering out the emails of the account. -/
theorem deleteEmailsByAccount_spec (s : MemState) (aid : String)
    (hnodup : (s.emails.map Prod.fst).Nodup) :
    MemStorage.deleteEmailsByAccount s aid
      = { s with
          emails := s.emails.filter (fun p => !(p.2.accountId == aid)) } := by
  have hfil : s.emails.filter (fun p =>
        !(((s.emails.filter (fun q => q.2.accountId == aid)).map
          Prod.fst).contains p.1))
      = s.emails.filter (fun p => !(p.2.accountId == aid)) :=
    List.filter_congr (fun p hp => by
      rw [emailsToDelete_contains s.emails aid hnodup p hp])
  simp only [MemStorage.deleteEmailsByAccount]
  rw [hfil]

/-- C3: deleting an account removes the account and exactly the emails it
owns, leaving other accounts, emails of other accounts, the knowledge base and
the id counter unchanged; deleting an unknown id returns false and leaves
the state unchanged. -/
theorem deleteAccount_cascade (s : MemState) (id : String)
    (hnodup : (s.emails.map Prod.fst).Nodup) :
    (s.accounts.any (fun p => p.1 == id) = true →
      MemStorage.deleteAccount s id
        = ({ accounts := s.accounts.filter (fun p => !(p.1 == id)),
             emails := s.emails.filter (fun p => !(p.2.accountId == id)),
             knowledgeBase := s.knowledgeBase,
             nextId := s.nextId }, true))
    ∧ (s.accounts.any (fun p => p.1 == id) = false →
        MemStorage.deleteAccount s id = (s, false)) := by
  constructor
  · intro hany
    unfold MemStorage.deleteAccount
    rw [hany]
    simp only [if_true]
    rw [deleteEmailsByAccount_spec
      { accounts := s.accounts.filter (fun p => !(p.1 == id)),
        emails := s.emails, knowledgeBase := s.knowledgeBase,
        nextId := s.nextId } id hnodup]
  · intro hany
    unfold MemStorage.deleteAccount
    rw [hany]
    simp only [Bool.false_eq_true, if_false]
    have hacc : s.accounts.filter (fun p => !(p.1 == id)) = s.accounts :=
      List.filter_eq_self.mpr (fun a ha => by
        have h1 := List.any_eq_false.mp hany a ha
        simp only [Bool.not_eq_true] at h1
        simp [h1])
    rw [hacc]

/-- Second sample account. -/
def acct2 : EmailAccount :=
  { id := "acct-2", email := "two@example.com",
    imapHost := "imap.example.com", imapPort := 993, imapUser := "two",
    imapPassword := "pw2", isActive := true, lastSyncedAt := none,
    createdAt := 0 }

/-- Sample email owned by the first account. -/
def sampleEmailA : Email :=
  { id := "e1", accountId := "acct-1", messageId := "mid-1",
    «from» := "alice@example.com", «to» := "user@example.com",
    subject := "hello", bodyText := none, bodyHtml := none,
    folder := inboxFolder, category := none, isRead := false,
    hasAttachments := false, receivedAt := 0, createdAt := 0 }

/-- Sample email owned by the second account. -/
def sampleEmailB : Email :=
  { id := "e2", accountId := "acct-2", messageId := "mid-2",
    «from» := "carol@example.com", «to» := "two@example.com",
    subject := "hi", bodyText := none, bodyHtml := none,
    folder := inboxFolder, category := none, isRead := false,
    hasAttachments := false, receivedAt := 0, createdAt := 0 }

/-- Sample serialized embedding vector. -/
def sampleVec : String := "[1]"

/-- Sample knowledge entry with a stored embedding. -/
def sampleKb : KnowledgeBase :=
  { id := "k1", content := "meeting link", embedding := some sampleVec,
    category := "general", createdAt := 0, updatedAt := 0 }

/-- Sample two-account store used in the cascade-delete witness. -/
def cascadeState : MemState :=
  { accounts := [(sampleAccount.id, sampleAccount), (acct2.id, acct2)],
    emails := [(sampleEmailA.id, sampleEmailA), (sampleEmailB.id, sampleEmailB)],
    knowledgeBase := [(sampleKb.id, sampleKb)],
    nextId := 5 }

/-- C3 witness: cascade delete on a concrete two-account store removes
exactly the first account and its email; deleting an unknown id is a
no-op returning false. -/
theorem deleteAccount_cascade_witness :
    (cascadeState.emails.map Prod.fst).Nodup
    ∧ MemStorage.deleteAccount cascadeState sampleAcctId
      = ({ accounts := [(acct2.id, acct2)],
           emails := [(sampleEmailB.id, sampleEmailB)],
           knowledgeBase := [(sampleKb.id, sampleKb)],
           nextId := 5 }, true)
    ∧ MemStorage.deleteAccount cascadeState sampleMid
      = (cascadeState, false) := by
  refine ⟨by decide, ?_, ?_⟩
  · have h := (deleteAccount_cascade cascadeState sampleAcctId
      (by decide)).1 (by decide)
    rw [h]
    decide
  · exact (deleteAccount_cascade cascadeState sampleMid (by decide)).2
      (by decide)

/-- Every call of the chat notification produces exactly one chat outcome
and no webhook outcome, whatever the configuration and HTTP outcome. -/
theorem sendSlackNotification_counts (env : NotifyEnv) (e : Email) :
    (sendSlackNotification env e).countP isSlackEvent = 1
    ∧ (sendSlackNotification env e).countP isWebhookEvent = 0 := by
  unfold sendSlackNotification
  cases h1 : truthyStr env.slackWebhookUrl <;>
    cases h2 : env.slackPostOk <;> simp [h1, h2] <;> decide

/-- Every call of the generic webhook produces exactly one webhook outcome
and no chat outcome, whatever the configuration and HTTP outcome. -/
theorem sendWebhook_counts (env : NotifyEnv) (e : Email) :
    (sendWebhook env e).countP isWebhookEvent = 1
    ∧ (sendWebhook env e).countP isSlackEvent = 0 := by
  unfold sendWebhook
  cases h1 : truthyStr env.webhookSiteUrl <;>
    cases h2 : env.webhookPostOk <;> simp [h1, h2] <;> decide

/-- Counting a notification predicate through the `Event.notif` injection. -/
theorem countP_notif_map (p : NotifEvent → Bool) (l : List NotifEvent) :
    List.countP (fun ev =>
        match ev with
        | Event.notif ne => p ne
        | _ => false) (List.map Event.notif l)
      = List.countP p l := by
  induction l with
  | nil => rfl
  | cons a t ih => simp [List.countP_cons, ih]

/-- The notification predicate composed with the `Event.notif` injection is
the underlying predicate. -/
theorem notifPred_comp (p : NotifEvent → Bool) :
    ((fun ev =>
        match ev with
        | Event.notif ne => p ne
        | _ => false) ∘ Event.notif) = p :=
  funext (fun _ => rfl)

/-- Event trace of processing a fresh, parseable, classifiable message:
save, one best-effort index attempt, the category-gated notifications, and
the sync-time update. -/
theorem processMessage_fresh_events (env : NotifyEnv)
    (account : EmailAccount) (m : MsgInput) (s : MemState) (now : Nat)
    (parsed : ParsedMail) (cat : EmailCategorizationResult)
    (hp : m.parse = Except.ok parsed) (hc : m.categorize = Except.ok cat)
    (hfind : MemStorage.getEmailByMessageId s
      (resolveMessageId parsed.messageId account.id m.uid) account.id
      = none) :
    ∃ e : Email, (processMessage env account m s now).2
      = Event.emailSaved e.id :: indexEmail e
        ++ (if cat.category == interestedCategory then
              (sendSlackNotification env e ++ sendWebhook env e).map
                Event.notif
            else [])
        ++ [Event.syncTimeUpdated account.id] := by
  unfold processMessage
  rw [hp]
  simp only [hfind, hc]
  exact ⟨_, rfl⟩

/-- C5: for every successfully persisted email, the chat notification and
the generic webhook are each called exactly once when the resolved category
is `Interested` and not at all otherwise; no error propagates out of the
per-message handler, and the email stays persisted regardless of either
notification configuration or HTTP outcome. -/
theorem notification_category_gate (env : NotifyEnv)
    (account : EmailAccount) (m : MsgInput) (s : MemState) (now : Nat)
    (parsed : ParsedMail) (cat : EmailCategorizationResult)
    (hp : m.parse = Except.ok parsed) (hc : m.categorize = Except.ok cat)
    (hfind : MemStorage.getEmailByMessageId s
      (resolveMessageId parsed.messageId account.id m.uid) account.id
      = none) :
    slackAttempts (processMessage env account m s now).2
      = (if cat.category == interestedCategory then 1 else 0)
    ∧ webhookAttempts (processMessage env account m s now).2
      = (if cat.category == interestedCategory then 1 else 0)
    ∧ Event.errorLogged ∉ (processMessage env account m s now).2
    ∧ countByKey (processMessage env account m s now).1
        (resolveMessageId parsed.messageId account.id m.uid) account.id
      = countByKey s (resolveMessageId parsed.messageId account.id m.uid)
          account.id + 1 := by
  obtain ⟨e, hev⟩ :=
    processMessage_fresh_events env account m s now parsed cat hp hc hfind
  have hslack := sendSlackNotification_counts env e
  have hweb := sendWebhook_counts env e
  refine ⟨?_, ?_, ?_, processMessage_fresh_count env account m s now parsed
    cat hp hc hfind⟩
  · unfold slackAttempts
    rw [hev]
    cases hcat : cat.category == interestedCategory <;>
      simp [hcat, indexEmail, List.countP_append, List.countP_cons,
        countP_notif_map, notifPred_comp, hslack.1, hslack.2, hweb.1, hweb.2]
  · unfold webhookAttempts
    rw [hev]
    cases hcat : cat.category == interestedCategory <;>
      simp [hcat, indexEmail, List.countP_append, List.countP_cons,
        countP_notif_map, notifPred_comp, hslack.1, hslack.2, hweb.1, hweb.2]
  · rw [hev]
    cases hcat : cat.category == interestedCategory <;>
      simp [indexEmail]

/-- C5 witness: the gate at a concrete `Interested` message with the chat
target configured and the webhook target unconfigured. -/
theorem notification_category_gate_witness :
    sampleMsg.parse = Except.ok sampleParsed
    ∧ sampleMsg.categorize = Except.ok sampleCat
    ∧ slackAttempts (processMessage sampleEnv sampleAccount sampleMsg
        MemState.empty 0).2
      = (if sampleCat.category == interestedCategory then 1 else 0)
    ∧ webhookAttempts (processMessage sampleEnv sampleAccount sampleMsg
        MemState.empty 0).2
      = (if sampleCat.category == interestedCategory then 1 else 0) :=
  ⟨rfl, rfl,
   (notification_category_gate sampleEnv sampleAccount sampleMsg
     MemState.empty 0 sampleParsed sampleCat rfl rfl (by decide)).1,
   (notification_category_gate sampleEnv sampleAccount sampleMsg
     MemState.empty 0 sampleParsed sampleCat rfl rfl (by decide)).2.1⟩

/-- C6: a message whose classification call fails is caught at the
per-message boundary: the storage state is returned unchanged (no record,
no index write, no notification — the only event is the logged error), and
the rest of the batch is processed exactly as it would have been. -/
theorem classification_failure_contained (env : NotifyEnv)
    (account : EmailAccount) (m : MsgInput) (s : MemState) (now : Nat)
    (parsed : ParsedMail) (err : String) (rest : List MsgInput)
    (hp : m.parse = Except.ok parsed)
    (hfind : MemStorage.getEmailByMessageId s
      (resolveMessageId parsed.messageId account.id m.uid) account.id
      = none)
    (hc : m.categorize = Except.error err) :
    processMessage env account m s now = (s, [Event.errorLogged])
    ∧ processBatch env account (m :: rest) s now
      = ((processBatch env account rest s now).1,
         Event.errorLogged :: (processBatch env account rest s now).2) := by
  have h1 : processMessage env account m s now = (s, [Event.errorLogged]) := by
    unfold processMessage
    rw [hp]
    simp only [hfind, hc]
  refine ⟨h1, ?_⟩
  simp [processBatch, h1]

/-- Failure message of the classification call (openai.ts line 65). -/
def classifyFailMsg : String := "Failed to categorize email"

/-- Sample message whose classification call fails. -/
def sampleMsgBad : MsgInput :=
  { uid := 7, parse := Except.ok sampleParsed,
    categorize := Except.error classifyFailMsg }

/-- C6 witness: the contained classification failure at a concrete message
and empty store, with a successful message following in the batch. -/
theorem classification_failure_contained_witness :
    sampleMsgBad.parse = Except.ok sampleParsed
    ∧ sampleMsgBad.categorize = Except.error classifyFailMsg
    ∧ processMessage sampleEnv sampleAccount sampleMsgBad MemState.empty 0
      = (MemState.empty, [Event.errorLogged])
    ∧ processBatch sampleEnv sampleAccount (sampleMsgBad :: [sampleMsg])
        MemState.empty 0
      = ((processBatch sampleEnv sampleAccount [sampleMsg] MemState.empty 0).1,
         Event.errorLogged ::
           (processBatch sampleEnv sampleAccount [sampleMsg]
             MemState.empty 0).2) :=
  ⟨rfl, rfl,
   (classification_failure_contained sampleEnv sampleAccount sampleMsgBad
     MemState.empty 0 sampleParsed classifyFailMsg [sampleMsg] rfl
     (by decide) rfl).1,
   (classification_failure_contained sampleEnv sampleAccount sampleMsgBad
     MemState.empty 0 sampleParsed classifyFailMsg [sampleMsg] rfl
     (by decide) rfl).2⟩

/-- Deleting a key from the registry leaves that key out of the key list. -/
theorem not_mem_filtered_keys (l : List (String × Nat)) (a : String) :
    a ∉ (l.filter (fun p => !(p.1 == a))).map Prod.fst := by
  intro h
  obtain ⟨p, hp, hpa⟩ := List.mem_map.mp h
  have hkeep := List.of_mem_filter hp
  simp [hpa] at hkeep

/-- Deleting a key from the registry preserves distinctness of keys. -/
theorem filtered_keys_nodup (l : List (String × Nat)) (a : String)
    (h : (l.map Prod.fst).Nodup) :
    ((l.filter (fun p => !(p.1 == a))).map Prod.fst).Nodup :=
  List.Nodup.sublist (List.Sublist.map Prod.fst (List.filter_sublist l)) h

/-- Starting a sync preserves distinctness of the registered account ids. -/
theorem startIMAPSync_keys_nodup (st : SyncState) (a : String)
    (h : (st.activeConnections.map Prod.fst).Nodup) :
    ((startIMAPSync st a).activeConnections.map Prod.fst).Nodup := by
  unfold startIMAPSync
  cases hf : st.activeConnections.find? (fun p => p.1 == a) with
  | some p =>
      simp only [hf]
      rw [List.map_append]
      refine List.Nodup.append (filtered_keys_nodup _ _ h) (by simp) ?_
      intro x hx hx'
      rw [List.mem_map] at hx'
      obtain ⟨q, hq, hq1⟩ := hx'
      rw [List.mem_singleton] at hq
      rw [hq] at hq1
      rw [← hq1] at hx
      exact not_mem_filtered_keys _ _ hx
  | none =>
      simp only [hf]
      rw [List.map_append]
      refine List.Nodup.append h (by simp) ?_
      intro x hx hx'
      obtain ⟨q, hq, hq1⟩ := List.mem_map.mp hx'
      rw [List.mem_singleton] at hq
      rw [hq] at hq1
      have hq1' : a = x := by simpa using hq1
      obtain ⟨r, hr, hr1⟩ := List.mem_map.mp hx
      have hnone := List.find?_eq_none.mp hf r hr
      apply hnone
      simp [hr1, ← hq1']

/-- Stopping a sync preserves distinctness of the registered account ids. -/
theorem stopIMAPSync_keys_nodup (st : SyncState) (a : String)
    (h : (st.activeConnections.map Prod.fst).Nodup) :
    ((stopIMAPSync st a).activeConnections.map Prod.fst).Nodup := by
  unfold stopIMAPSync
  cases hf : st.activeConnections.find? (fun p => p.1 == a) with
  | some p =>
      simp only [hf]
      exact filtered_keys_nodup _ _ h
  | none =>
      simp only [hf]
      exact h

/-- Any start/stop sequence preserves distinctness of registered ids. -/
theorem applySyncOps_keys_nodup (ops : List SyncOp) (st : SyncState)
    (h : (st.activeConnections.map Prod.fst).Nodup) :
    ((applySyncOps st ops).activeConnections.map Prod.fst).Nodup := by
  induction ops generalizing st with
  | nil => exact h
  | cons op rest ih =>
      cases op with
      | start a => exact ih _ (startIMAPSync_keys_nodup st a h)
      | stop a => exact ih _ (stopIMAPSync_keys_nodup st a h)

/-- After a start, the registry maps the account id to the fresh session. -/
theorem startIMAPSync_registers (st : SyncState) (a : String) :
    (startIMAPSync st a).activeConnections.find? (fun q => q.1 == a)
      = some (a, st.nextSession) := by
  unfold startIMAPSync
  cases hf : st.activeConnections.find? (fun p => p.1 == a) with
  | some p =>
      simp only [hf]
      rw [List.find?_append]
      have h1 : (st.activeConnections.filter
          (fun p => !(p.1 == a))).find? (fun q => q.1 == a) = none := by
        rw [List.find?_eq_none]
        intro x hx hbeq
        have hkeep := List.of_mem_filter hx
        rw [hbeq] at hkeep
        simp at hkeep
      rw [h1]
      simp
  | none =>
      simp only [hf]
      rw [List.find?_append, hf]
      simp

/-- A start on a registered account id terminates the registered session. -/
theorem startIMAPSync_terminates_existing (st : SyncState) (a : String)
    (p : String × Nat)
    (hf : st.activeConnections.find? (fun q => q.1 == a) = some p) :
    (startIMAPSync st a).ended = st.ended ++ [p.2] := by
  unfold startIMAPSync
  simp only [hf]

/-- Stopping an unregistered account id is a no-op. -/
theorem stopIMAPSync_unknown (st : SyncState) (a : String)
    (hf : st.activeConnections.find? (fun q => q.1 == a) = none) :
    stopIMAPSync st a = st := by
  unfold stopIMAPSync
  rw [hf]

/-- C7: over every start/stop sequence from the initial registry, each
account id is registered at most once; a start on an already-registered id
terminates the existing session before registering the fresh one; and a stop
on an unregistered id leaves the registry unchanged. -/
theorem session_registry_at_most_one (ops : List SyncOp) :
    ((applySyncOps SyncState.init ops).activeConnections.map Prod.fst).Nodup
    ∧ (∀ (st : SyncState) (a : String) (p : String × Nat),
        st.activeConnections.find? (fun q => q.1 == a) = some p →
        (startIMAPSync st a).ended = st.ended ++ [p.2])
    ∧ (∀ (st : SyncState) (a : String),
        (startIMAPSync st a).activeConnections.find? (fun q => q.1 == a)
          = some (a, st.nextSession))
    ∧ (∀ (st : SyncState) (a : String),
        st.activeConnections.find? (fun q => q.1 == a) = none →
        stopIMAPSync st a = st) :=
  ⟨applySyncOps_keys_nodup ops SyncState.init (by simp [SyncState.init]),
   fun st a p hf => startIMAPSync_terminates_existing st a p hf,
   fun st a => startIMAPSync_registers st a,
   fun st a hf => stopIMAPSync_unknown st a hf⟩

/-- Sample registry with one live session. -/
def sampleSync : SyncState :=
  { activeConnections := [(sampleAcctId, 0)], nextSession := 1, ended := [] }

/-- C7 witness: restart terminates the live session and re-registers the id
at a fresh session; stopping an unknown id is a no-op. -/
theorem session_registry_at_most_one_witness :
    sampleSync.activeConnections.find? (fun q => q.1 == sampleAcctId)
      = some (sampleAcctId, 0)
    ∧ (startIMAPSync sampleSync sampleAcctId).ended = sampleSync.ended ++ [0]
    ∧ (startIMAPSync sampleSync sampleAcctId).activeConnections.find?
        (fun q => q.1 == sampleAcctId) = some (sampleAcctId, 1)
    ∧ SyncState.init.activeConnections.find? (fun q => q.1 == sampleMid)
      = none
    ∧ stopIMAPSync SyncState.init sampleMid = SyncState.init :=
  ⟨by decide,
   (session_registry_at_most_one []).2.1 sampleSync sampleAcctId
     (sampleAcctId, 0) (by decide),
   (session_registry_at_most_one []).2.2.1 sampleSync sampleAcctId,
   by decide,
   (session_registry_at_most_one []).2.2.2 SyncState.init sampleMid
     (by decide)⟩

/-- Every scored entry passed the truthiness filter, so it carries a stored
embedding. -/
theorem scored_entry_has_embedding (cosSim : Embedding → String → ℚ)
    (qe : Embedding) (entries : List KnowledgeBase) :
    ∀ se ∈ scoredKnowledge cosSim qe entries, se.entry.embedding ≠ none := by
  intro se hse
  unfold scoredKnowledge at hse
  obtain ⟨ent, hent, hmk⟩ := List.mem_map.mp hse
  have ht := List.of_mem_filter hent
  intro h0
  rw [← hmk] at h0
  have h1 : ent.embedding = none := h0
  rw [h1] at ht
  simp [truthyStr] at ht

/-- C8: with a nonempty knowledge base, retrieval returns exactly the first
three entries of the descending-similarity stable sort of the scored entries
(a permutation of them, so all of them when fewer than three are scored),
every returned entry scoring at least as high as every entry it displaced;
with an empty knowledge base, retrieval returns the empty list without
consulting the embedding oracle, and reply generation still succeeds with an
empty grounding list. -/
theorem reply_grounding_top3 (embed : String → Except String Embedding)
    (cosSim : Embedding → String → ℚ) (q : String)
    (entries : List KnowledgeBase) (qe : Embedding)
    (llm : Except String RawReply) (raw : RawReply) (email : Email)
    (he : embed q = Except.ok qe) (hne : entries ≠ [])
    (hllm : llm = Except.ok raw) :
    findRelevantKnowledge embed cosSim q entries 3
      = Except.ok ((((scoredKnowledge cosSim qe entries).insertionSort
          simGe).take 3).map ScoredEntry.entry)
    ∧ List.Sorted simGe (((scoredKnowledge cosSim qe entries).insertionSort
        simGe).take 3)
    ∧ (∀ x ∈ ((scoredKnowledge cosSim qe entries).insertionSort simGe).take 3,
       ∀ y ∈ ((scoredKnowledge cosSim qe entries).insertionSort simGe).drop 3,
         y.similarity ≤ x.similarity)
    ∧ ((scoredKnowledge cosSim qe entries).insertionSort simGe).Perm
        (scoredKnowledge cosSim qe entries)
    ∧ (((scoredKnowledge cosSim qe entries).insertionSort simGe).take
        3).length = min 3 (scoredKnowledge cosSim qe entries).length
    ∧ (∀ (embed2 : String → Except String Embedding) (q2 : String),
        findRelevantKnowledge embed2 cosSim q2 [] 3 = Except.ok [])
    ∧ (∃ r, generateReply embed cosSim llm email [] = Except.ok r
        ∧ r.relevantKnowledge = []) := by
  have hsorted := List.sorted_insertionSort simGe
    (scoredKnowledge cosSim qe entries)
  have hperm := List.perm_insertionSort simGe
    (scoredKnowledge cosSim qe entries)
  refine ⟨?_, ?_, ?_, hperm, ?_, ?_, ?_⟩
  · unfold findRelevantKnowledge
    rw [if_neg (fun h => hne (List.length_eq_zero.mp h)), he]
  · exact List.Pairwise.sublist (List.take_sublist 3 _) hsorted
  · intro x hx y hy
    have hp2 : List.Pairwise simGe
        (((scoredKnowledge cosSim qe entries).insertionSort simGe).take 3
          ++ ((scoredKnowledge cosSim qe entries).insertionSort
            simGe).drop 3) := by
      rw [List.take_append_drop]
      exact hsorted
    exact (List.pairwise_append.mp hp2).2.2 x hx y hy
  · rw [List.length_take, hperm.length_eq]
  · intro embed2 q2
    rfl
  · have h0 : findRelevantKnowledge embed cosSim (emailContext email) [] 3
        = Except.ok [] := rfl
    unfold generateReply
    rw [h0, hllm]
    exact ⟨_, rfl, rfl⟩

/-- Sample embedding oracle that always succeeds. -/
def sampleEmbed : String → Except String Embedding :=
  fun _ => Except.ok [1]

/-- Sample similarity scorer. -/
def sampleCosSim : Embedding → String → ℚ := fun _ _ => 1

/-- Sample successful LLM reply text. -/
def sampleReplyOk : String := "Sure, here is the meeting link."

/-- Sample raw LLM reply. -/
def sampleRawReply : RawReply :=
  { reply := some sampleReplyOk, confidence := some 1 }

/-- C8 witness: retrieval and reply generation at a concrete knowledge base
and a concrete empty knowledge base. -/
theorem reply_grounding_top3_witness :
    sampleEmbed sampleSubject = Except.ok [1]
    ∧ ([sampleKb] : List KnowledgeBase) ≠ []
    ∧ findRelevantKnowledge sampleEmbed sampleCosSim sampleSubject
        [sampleKb] 3
      = Except.ok ((((scoredKnowledge sampleCosSim [1]
          [sampleKb]).insertionSort simGe).take 3).map ScoredEntry.entry)
    ∧ (∃ r, generateReply sampleEmbed sampleCosSim
          (Except.ok sampleRawReply) sampleEmailA [] = Except.ok r
        ∧ r.relevantKnowledge = []) :=
  ⟨rfl, by decide,
   (reply_grounding_top3 sampleEmbed sampleCosSim sampleSubject [sampleKb]
     [1] (Except.ok sampleRawReply) sampleRawReply sampleEmailA rfl
     (by decide) rfl).1,
   (reply_grounding_top3 sampleEmbed sampleCosSim sampleSubject [sampleKb]
     [1] (Except.ok sampleRawReply) sampleRawReply sampleEmailA rfl
     (by decide) rfl).2.2.2.2.2.2⟩

/-- C10: knowledge retrieval only ever scores and returns entries whose
stored embedding is present: an entry without one is never among the scored
entries and never among the returned entries. -/
theorem knowledge_requires_embedding
    (embed : String → Except String Embedding)
    (cosSim : Embedding → String → ℚ) (q : String)
    (entries : List KnowledgeBase) (k : Nat) (res : List KnowledgeBase)
    (hres : findRelevantKnowledge embed cosSim q entries k = Except.ok res) :
    (∀ e ∈ res, e.embedding ≠ none)
    ∧ (∀ (qe : Embedding) (e : KnowledgeBase), e.embedding = none →
        e ∉ (scoredKnowledge cosSim qe entries).map ScoredEntry.entry) := by
  constructor
  · intro e he
    unfold findRelevantKnowledge at hres
    by_cases hlen : entries.length = 0
    · rw [if_pos hlen] at hres
      injection hres with h
      rw [← h] at he
      exact absurd he (List.not_mem_nil e)
    · rw [if_neg hlen] at hres
      cases hq : embed q with
      | error msg =>
          rw [hq] at hres
          injection hres
      | ok qe2 =>
          rw [hq] at hres
          injection hres with h
          rw [← h] at he
          obtain ⟨se, hsetake, hse1⟩ := List.mem_map.mp he
          have hs2 := List.mem_of_mem_take hsetake
          have hs3 := (List.mem_insertionSort simGe).mp hs2
          have hemb := scored_entry_has_embedding cosSim qe2 entries se hs3
          rw [hse1] at hemb
          exact hemb
  · intro qe e h0 hmem
    obtain ⟨se, hse, hse1⟩ := List.mem_map.mp hmem
    have hemb := scored_entry_has_embedding cosSim qe entries se hse
    rw [hse1] at hemb
    exact hemb h0

/-- Sample knowledge entry with no stored embedding. -/
def kbNoEmb : KnowledgeBase :=
  { id := "k2", content := "no embedding", embedding := none,
    category := "general", createdAt := 0, updatedAt := 0 }

/-- C10 witness: at a concrete store, the entry without an embedding is
neither scored nor returned. -/
theorem knowledge_requires_embedding_witness :
    findRelevantKnowledge sampleEmbed sampleCosSim sampleSubject
        [sampleKb, kbNoEmb] 3 = Except.ok [sampleKb]
    ∧ kbNoEmb.embedding = none
    ∧ kbNoEmb ∉ (scoredKnowledge sampleCosSim [1]
        [sampleKb, kbNoEmb]).map ScoredEntry.entry :=
  ⟨by decide, rfl,
   (knowledge_requires_embedding sampleEmbed sampleCosSim sampleSubject
     [sampleKb, kbNoEmb] 3 [sampleKb] (by decide)).2 [1] kbNoEmb rfl⟩

/-- C9: for every raw classifier confidence (absent, zero, negative or above
one), the confidence `categorizeEmail` returns lies in the closed interval
from 0 to 1. -/
theorem confidence_clamped (raw : Option ℚ) :
    0 ≤ categorizeEmailConfidence raw ∧ categorizeEmailConfidence raw ≤ 1 := by
  unfold categorizeEmailConfidence
  constructor
  · exact le_max_left 0 _
  · exact max_le (by norm_num) (min_le_left 1 _)

end Onebox

